import Mathlib

/-!
Shallow embedding of the resume-analyzer backend (`src/backend/main.py`).

Python strings are modelled as `List Char` (`PyStr`): Python `len` is
`List.length`, slicing `s[:n]` is `List.take n`, `str.strip()` is `strip`,
`str.lower()` is `lower`, and `s.split('.')` is `splitOnDot`.

The effectful surroundings of one `/analyze` request are captured by `Env`:
the `GROQ_API_KEY` environment variable (the empty list models an unset or
empty variable, matching Python truthiness), the outcome of parsing the
uploaded bytes with PyPDF2 (an error message, or the list of per-page
`extract_text()` results, `[]` standing for an empty/None extraction) or
with python-docx (an error message, or the list of paragraph texts), and
the chat-completion call as a function from the composed user prompt to
either an upstream error message or the first choice's message content.

`analyze_resume` mirrors the control flow of the route handler line by
line and additionally returns a `Trace` recording whether the upload's
bytes were read, whether an extractor ran, which (resume, job-description)
pair the prompt composer received, and how many completion calls were made.
-/

namespace ResumeAnalyzer

deriving instance DecidableEq for Except

abbrev PyStr := List Char

/-- Coerce a Lean string literal to the `List Char` model of Python strings. -/
def str (s : String) : PyStr := s.data

/-- The newline character appended between extracted chunks. -/
def nl : Char := '\n'

/-- Python `str.isspace` on one character, as used by `str.strip()`. -/
def isWS (c : Char) : Bool := c.isWhitespace

/-- Python `str.lower()`. -/
def lower (s : PyStr) : PyStr := s.map Char.toLower

/-- Python `str.strip()`: drop whitespace from both ends. -/
def strip (s : PyStr) : PyStr :=
  ((s.reverse.dropWhile isWS).reverse).dropWhile isWS

/-- Python `str.split('.')`: always returns a non-empty list of fragments. -/
def splitOnDot : PyStr → List PyStr
  | [] => [[]]
  | c :: rest =>
    let r := splitOnDot rest
    if c = '.' then [] :: r
    else
      match r with
      | [] => [[c]]
      | h :: t => (c :: h) :: t

/-- `fastapi.HTTPException`: a status code and a human-readable detail. -/
structure HTTPException where
  status_code : Nat
  detail : PyStr
deriving DecidableEq, Repr

/-- The request-scoped effectful environment of the service. -/
structure Env where
  groq_api_key : PyStr
  pdfPages : Except PyStr (List PyStr)
  docxParagraphs : Except PyStr (List PyStr)
  completion : PyStr → Except PyStr PyStr

/-- `get_groq_client`: fails when `GROQ_API_KEY` is unset/empty, otherwise
returns the client (modelled by the key itself). -/
def get_groq_client (api_key : PyStr) : Except PyStr PyStr :=
  if api_key = [] then
    .error (str "GROQ_API_KEY environment variable is not set")
  else
    .ok api_key

/-- The page loop of `extract_text_from_pdf`: starting from the empty
string, append each non-empty per-page extraction followed by a newline. -/
def pdf_fold (pages : List PyStr) : PyStr :=
  pages.foldl
    (fun text extracted =>
      if extracted ≠ [] then text ++ extracted ++ [nl] else text) []

/-- `extract_text_from_pdf`: concatenate the non-empty per-page texts, a
newline after each, and strip the result; any parse error becomes an
HTTP 400 carrying the underlying message. -/
def extract_text_from_pdf (parsed : Except PyStr (List PyStr)) :
    Except HTTPException PyStr :=
  match parsed with
  | .error e => .error ⟨400, str "Error reading PDF: " ++ e⟩
  | .ok pages => .ok (strip (pdf_fold pages))

/-- `extract_text_from_docx`: join the paragraph texts with newlines and
strip the result; any parse error becomes an HTTP 400 carrying the
underlying message. -/
def extract_text_from_docx (parsed : Except PyStr (List PyStr)) :
    Except HTTPException PyStr :=
  match parsed with
  | .error e => .error ⟨400, str "Error reading DOCX: " ++ e⟩
  | .ok paragraphs =>
      .ok (strip (List.intercalate [nl] paragraphs))

/-- The extractor dispatch inside `analyze_resume`: PDF when the computed
extension is `pdf`, otherwise DOCX. -/
def extract_for (env : Env) (file_extension : PyStr) :
    Except HTTPException PyStr :=
  if file_extension = str "pdf" then extract_text_from_pdf env.pdfPages
  else extract_text_from_docx env.docxParagraphs

/-- The f-string prompt template of `analyze_resume`, interpolating the
(already truncated) resume text and job description. -/
def analysis_prompt (resume_text job_description : PyStr) : PyStr :=
  str "You are an expert ATS (Applicant Tracking System) and career coach. Analyze this resume against the job description and provide detailed, actionable feedback.\n\nRESUME:\n"
  ++ resume_text
  ++ str "\n\nJOB DESCRIPTION:\n"
  ++ job_description
  ++ str "\n\nProvide a comprehensive analysis with these sections:\n\n1. MATCH SCORE\n   - Give a percentage (0-100%) rating\n   - Brief explanation of the score\n\n2. KEY STRENGTHS (3-5 points)\n   - Skills and experiences that align well\n   - Specific examples from the resume\n\n3. GAPS & MISSING SKILLS (3-5 points)\n   - Required qualifications not present\n   - Skills mentioned in job description but missing from resume\n\n4. ACTIONABLE RECOMMENDATIONS (3-5 points)\n   - Specific changes to improve the resume\n   - How to better highlight relevant experience\n   - Suggestions for formatting or content\n\n5. KEYWORDS TO ADD\n   - 5-8 important keywords from the job description\n   - Where to incorporate them in the resume\n\nBe specific, constructive, and professional. Focus on actionable advice."

/-- The fixed model identifier used for completions and reported by
`/health` and in analyze metadata. -/
def MODEL_NAME : PyStr := str "llama-3.3-70b-versatile"

/-- The `metadata` object of a successful analyze response. -/
structure AnalysisMetadata where
  resume_length : Nat
  filename : PyStr
  model_used : PyStr
  service : PyStr
deriving DecidableEq, Repr

/-- The body of a successful analyze response. -/
structure AnalysisResponse where
  success : Bool
  analysis : PyStr
  metadata : AnalysisMetadata
deriving DecidableEq, Repr

/-- Observable effects of one analyze request: whether the upload's bytes
were read, whether an extractor ran, the exact argument pair handed to the
prompt composer (if composition was reached), and the number of
chat-completion calls issued. -/
structure Trace where
  fileRead : Bool
  extractionRun : Bool
  composed : Option (PyStr × PyStr)
  completionCalls : Nat
deriving DecidableEq, Repr

/-- The body of the `/health` response. -/
structure HealthStatus where
  status : PyStr
  api_configured : Bool
  service : PyStr
  model : PyStr
  message : PyStr
deriving DecidableEq, Repr

/-- `health_check`: reports whether `GROQ_API_KEY` is configured, without
contacting the upstream service; always returns a body (HTTP 200). -/
def health_check (groq_api_key : PyStr) : HealthStatus :=
  let api_key_present := groq_api_key ≠ []
  { status := if api_key_present then str "healthy" else str "unhealthy"
    api_configured := api_key_present
    service := str "groq"
    model := MODEL_NAME
    message :=
      if api_key_present then str "API is ready"
      else str "GROQ_API_KEY environment variable is not set" }

/-- The `/analyze` route handler, modelled line by line from
`analyze_resume` in `src/backend/main.py`. -/
def analyze_resume (env : Env) (filename job_description : PyStr) :
    Except HTTPException AnalysisResponse × Trace :=
  if filename = [] then
    (.error ⟨400, str "No file uploaded"⟩, ⟨false, false, none, 0⟩)
  else
    let file_extension := (splitOnDot (lower filename)).getLastD []
    if file_extension ≠ str "pdf" ∧ file_extension ≠ str "docx" then
      (.error ⟨400, str "Unsupported file format. Please upload PDF or DOCX"⟩,
       ⟨false, false, none, 0⟩)
    else if job_description = [] ∨ (strip job_description).length < 50 then
      (.error ⟨400,
         str "Job description is too short. Please provide a detailed description."⟩,
       ⟨false, false, none, 0⟩)
    else
      match extract_for env file_extension with
      | .error e => (.error e, ⟨true, true, none, 0⟩)
      | .ok resume_text =>
        if resume_text = [] ∨ (strip resume_text).length < 100 then
          (.error ⟨400,
             str "Could not extract sufficient text from resume. Please check your file."⟩,
           ⟨true, true, none, 0⟩)
        else
          let resume_trunc := resume_text.take 4000
          let jd_trunc := job_description.take 2500
          let prompt := analysis_prompt resume_trunc jd_trunc
          match get_groq_client env.groq_api_key with
          | .error e =>
              (.error ⟨500, str "Analysis failed: " ++ e⟩,
               ⟨true, true, some (resume_trunc, jd_trunc), 0⟩)
          | .ok _ =>
            match env.completion prompt with
            | .error e =>
                (.error ⟨500, str "Analysis failed: " ++ e⟩,
                 ⟨true, true, some (resume_trunc, jd_trunc), 1⟩)
            | .ok analysis =>
                (.ok ⟨true, analysis,
                      ⟨resume_trunc.length, filename, MODEL_NAME, str "groq"⟩⟩,
                 ⟨true, true, some (resume_trunc, jd_trunc), 1⟩)

/-- Spec-side predicate (from the spec's words, for comparison with the
code's validator): the filename ends in `.pdf` or `.docx`,
case-insensitively. -/
def filename_ends_pdf_or_docx (f : PyStr) : Bool :=
  List.isSuffixOf (str ".pdf") (lower f) || List.isSuffixOf (str ".docx") (lower f)

/-- Spec-side join (from the spec's words): join a list of texts with a
single newline between consecutive elements. -/
def newline_join : List PyStr → PyStr
  | [] => []
  | [p] => p
  | p :: ps => p ++ [nl] ++ newline_join ps

/-- Concatenation of a list of texts with a newline after each element;
the closed form of `pdf_fold` on the pages that survive the emptiness
filter. -/
def cat_nl : List PyStr → PyStr
  | [] => []
  | p :: ps => p ++ [nl] ++ cat_nl ps

/-- A job description of 50 non-whitespace characters (witness fixture). -/
def jdW : PyStr := List.replicate 50 'j'

/-- An extracted page of 100 non-whitespace characters (witness fixture). -/
def rtW : PyStr := List.replicate 100 'a'

/-- A resume page longer than the 4000-character truncation limit
(witness fixture). -/
def rtLong : PyStr := List.replicate 4100 'a'

/-- A job description longer than the 2500-character truncation limit
(witness fixture). -/
def jdLong : PyStr := List.replicate 2600 'j'

/-- An environment where every stage succeeds (witness fixture). -/
def envW : Env :=
  { groq_api_key := str "k"
    pdfPages := .ok [rtW]
    docxParagraphs := .ok [rtW]
    completion := fun _ => .ok (str "done") }

/-- A succeeding environment whose PDF page exceeds the truncation limit
(witness fixture). -/
def envLong : Env := { envW with pdfPages := .ok [rtLong] }

/-- An environment with no `GROQ_API_KEY` configured (witness fixture). -/
def envNoKey : Env := { envW with groq_api_key := [] }

/-- An environment whose PDF bytes fail to parse (witness fixture). -/
def envBadParse : Env :=
  { envW with pdfPages := .error (str "EOF marker not found")
              docxParagraphs := .error (str "file is not a zip file") }

/-- An environment whose completion call raises a transport failure
(witness fixture). -/
def envDownstream : Env :=
  { envW with completion := fun _ => .error (str "connection refused") }

/-- An environment whose PDF extracts to fewer than 100 characters
(witness fixture). -/
def envTiny : Env := { envW with pdfPages := .ok [str "too short"] }

/-- The successful response produced by `envW` on `cv.pdf` with `jdW`
(witness fixture). -/
def respW : AnalysisResponse :=
  ⟨true, str "done", ⟨100, str "cv.pdf", MODEL_NAME, str "groq"⟩⟩

/-- The trace produced by `envW` on `cv.pdf` with `jdW` (witness fixture). -/
def trW : Trace := ⟨true, true, some (rtW, jdW), 1⟩

lemma isWS_nl : isWS nl = true := by decide

lemma ne_of_head_ne (a b : PyStr) (c d : Char) (hc : a.head? = some c)
    (hd : b.head? = some d) (hcd : c ≠ d) : a ≠ b := by
  intro h
  rw [h, hd] at hc
  exact hcd (Option.some.inj hc).symm

lemma strip_nil : strip [] = [] := rfl

lemma strip_append_nl (x : PyStr) : strip (x ++ [nl]) = strip x := by
  simp [strip, List.dropWhile_cons, isWS_nl]

lemma length_dropWhile_le_self (p : Char → Bool) (l : PyStr) :
    (l.dropWhile p).length ≤ l.length := by
  induction l with
  | nil => simp
  | cons a l ih =>
      rw [List.dropWhile_cons]
      split
      · exact Nat.le_succ_of_le ih
      · simp

lemma strip_length_le (s : PyStr) : (strip s).length ≤ s.length := by
  unfold strip
  have h1 := length_dropWhile_le_self isWS ((s.reverse.dropWhile isWS).reverse)
  have h2 := length_dropWhile_le_self isWS s.reverse
  simp only [List.length_reverse] at h1 h2
  omega

lemma pdf_foldl_cat (pages : List PyStr) (acc : PyStr) :
    pages.foldl
        (fun text extracted =>
          if extracted ≠ [] then text ++ extracted ++ [nl] else text) acc
      = acc ++ cat_nl (pages.filter (fun p => p ≠ [])) := by
  induction pages generalizing acc with
  | nil => simp [cat_nl]
  | cons p ps ih =>
      simp only [List.foldl_cons, List.filter_cons]
      rw [ih]
      by_cases hp : p = [] <;> simp [hp, cat_nl]

lemma pdf_fold_eq_cat (pages : List PyStr) :
    pdf_fold pages = cat_nl (pages.filter (fun p => p ≠ [])) := by
  have h := pdf_foldl_cat pages []
  rw [List.nil_append] at h
  exact h

lemma cat_nl_cons_eq (a : PyStr) (t : List PyStr) :
    cat_nl (a :: t) = newline_join (a :: t) ++ [nl] := by
  induction t generalizing a with
  | nil => simp [cat_nl, newline_join]
  | cons b t' ih =>
      have h : cat_nl (a :: b :: t') = a ++ [nl] ++ cat_nl (b :: t') := rfl
      rw [h, ih]
      simp [newline_join, List.append_assoc]

lemma strip_cat_nl (g : List PyStr) : strip (cat_nl g) = strip (newline_join g) := by
  cases g with
  | nil => rfl
  | cons a t => rw [cat_nl_cons_eq, strip_append_nl]

lemma strip_pdf_fold (pages : List PyStr) :
    strip (pdf_fold pages) = strip (newline_join (pages.filter (fun p => p ≠ []))) := by
  rw [pdf_fold_eq_cat, strip_cat_nl]

lemma analyze_unfold_valid (env : Env) (filename job_description : PyStr)
    (hne : filename ≠ [])
    (hfmt : ¬((splitOnDot (lower filename)).getLastD [] ≠ str "pdf" ∧
              (splitOnDot (lower filename)).getLastD [] ≠ str "docx"))
    (hjd : 50 ≤ (strip job_description).length) :
    analyze_resume env filename job_description
      = match extract_for env ((splitOnDot (lower filename)).getLastD []) with
        | .error e => (.error e, ⟨true, true, none, 0⟩)
        | .ok resume_text =>
          if resume_text = [] ∨ (strip resume_text).length < 100 then
            (.error ⟨400,
               str "Could not extract sufficient text from resume. Please check your file."⟩,
             ⟨true, true, none, 0⟩)
          else
            match get_groq_client env.groq_api_key with
            | .error e =>
                (.error ⟨500, str "Analysis failed: " ++ e⟩,
                 ⟨true, true, some (resume_text.take 4000, job_description.take 2500), 0⟩)
            | .ok _ =>
              match env.completion
                  (analysis_prompt (resume_text.take 4000) (job_description.take 2500)) with
              | .error e =>
                  (.error ⟨500, str "Analysis failed: " ++ e⟩,
                   ⟨true, true, some (resume_text.take 4000, job_description.take 2500), 1⟩)
              | .ok analysis =>
                  (.ok ⟨true, analysis,
                        ⟨(resume_text.take 4000).length, filename, MODEL_NAME, str "groq"⟩⟩,
                   ⟨true, true, some (resume_text.take 4000, job_description.take 2500), 1⟩) := by
  have hjdne : job_description ≠ [] := by
    intro h
    rw [h] at hjd
    simp [strip_nil] at hjd
  have hjdcond : ¬(job_description = [] ∨ (strip job_description).length < 50) := by
    push_neg
    exact ⟨hjdne, by omega⟩
  simp only [analyze_resume, if_neg hne, if_neg hfmt, if_neg hjdcond]

lemma analyze_ok_inv (env : Env) (filename job_description : PyStr)
    (r : AnalysisResponse) (tr : Trace)
    (h : analyze_resume env filename job_description = (.ok r, tr)) :
    ∃ resume_text,
      extract_for env ((splitOnDot (lower filename)).getLastD []) = .ok resume_text ∧
      100 ≤ (strip resume_text).length ∧
      r.success = true ∧
      r.metadata = ⟨(resume_text.take 4000).length, filename, MODEL_NAME, str "groq"⟩ ∧
      tr.composed = some (resume_text.take 4000, job_description.take 2500) ∧
      env.completion (analysis_prompt (resume_text.take 4000) (job_description.take 2500))
        = .ok r.analysis ∧
      tr.completionCalls = 1 := by
  simp only [analyze_resume] at h
  split at h
  · simp at h
  · split at h
    · simp at h
    · split at h
      · simp at h
      · split at h
        · simp at h
        · rename_i resume_text hextract
          split at h
          · simp at h
          · rename_i hcond
            split at h
            · simp at h
            · split at h
              · simp at h
              · rename_i analysis hcompl
                injection h with h1 h2
                injection h1 with h1
                subst h1
                subst h2
                refine ⟨resume_text, hextract, ?_, rfl, rfl, rfl, ?_, rfl⟩
                · push_neg at hcond
                  omega
                · exact hcompl

lemma analyze_unfold_extracted (env : Env) (filename job_description resume_text : PyStr)
    (hne : filename ≠ [])
    (hfmt : ¬((splitOnDot (lower filename)).getLastD [] ≠ str "pdf" ∧
              (splitOnDot (lower filename)).getLastD [] ≠ str "docx"))
    (hjd : 50 ≤ (strip job_description).length)
    (hrt : extract_for env ((splitOnDot (lower filename)).getLastD []) = .ok resume_text)
    (h100 : 100 ≤ (strip resume_text).length) :
    analyze_resume env filename job_description
      = match get_groq_client env.groq_api_key with
        | .error e =>
            (.error ⟨500, str "Analysis failed: " ++ e⟩,
             ⟨true, true, some (resume_text.take 4000, job_description.take 2500), 0⟩)
        | .ok _ =>
          match env.completion
              (analysis_prompt (resume_text.take 4000) (job_description.take 2500)) with
          | .error e =>
              (.error ⟨500, str "Analysis failed: " ++ e⟩,
               ⟨true, true, some (resume_text.take 4000, job_description.take 2500), 1⟩)
          | .ok analysis =>
              (.ok ⟨true, analysis,
                    ⟨(resume_text.take 4000).length, filename, MODEL_NAME, str "groq"⟩⟩,
               ⟨true, true, some (resume_text.take 4000, job_description.take 2500), 1⟩) := by
  have hcond : ¬(resume_text = [] ∨ (strip resume_text).length < 100) := by
    push_neg
    refine ⟨?_, by omega⟩
    intro hh
    rw [hh] at h100
    simp [strip_nil] at h100
  rw [analyze_unfold_valid env filename job_description hne hfmt hjd]
  simp only [hrt, if_neg hcond]

lemma extract_for_error (env : Env) (ext : PyStr) (e : HTTPException)
    (h : extract_for env ext = .error e) :
    e.status_code = 400 ∧ e.detail.head? = some 'E' := by
  unfold extract_for at h
  by_cases hx : ext = str "pdf"
  · rw [if_pos hx] at h
    unfold extract_text_from_pdf at h
    rcases henv : env.pdfPages with m | pages
    · simp only [henv] at h
      injection h with h1
      subst h1
      exact ⟨rfl, rfl⟩
    · simp only [henv] at h
      exact absurd h (by simp)
  · rw [if_neg hx] at h
    unfold extract_text_from_docx at h
    rcases henv : env.docxParagraphs with m | paragraphs
    · simp only [henv] at h
      injection h with h1
      subst h1
      exact ⟨rfl, rfl⟩
    · simp only [henv] at h
      exact absurd h (by simp)

lemma dropWhile_replicate_not (p : Char → Bool) (c : Char) (hp : p c = false)
    (n : Nat) :
    List.dropWhile p (List.replicate n c) = List.replicate n c := by
  cases n with
  | zero => rfl
  | succ n => simp [List.replicate_succ, List.dropWhile_cons, hp]

lemma strip_replicate_char (c : Char) (hc : isWS c = false) (n : Nat) :
    strip (List.replicate n c) = List.replicate n c := by
  unfold strip
  rw [List.reverse_replicate, dropWhile_replicate_not isWS c hc,
      List.reverse_replicate, dropWhile_replicate_not isWS c hc]

lemma pdf_fold_single (p : PyStr) (hp : p ≠ []) : pdf_fold [p] = p ++ [nl] := by
  simp [pdf_fold, hp]

lemma extract_single_page (p : PyStr) (hp : p ≠ []) (hs : strip p = p) :
    extract_text_from_pdf (.ok [p]) = .ok p := by
  simp only [extract_text_from_pdf, pdf_fold_single p hp, strip_append_nl, hs]

lemma strip_rtLong : strip rtLong = rtLong :=
  strip_replicate_char 'a' (by decide) 4100

lemma strip_jdLong : strip jdLong = jdLong :=
  strip_replicate_char 'j' (by decide) 2600

lemma rtLong_length : rtLong.length = 4100 := by
  rw [show rtLong = List.replicate 4100 'a' from rfl, List.length_replicate]

lemma jdLong_length : jdLong.length = 2600 := by
  rw [show jdLong = List.replicate 2600 'j' from rfl, List.length_replicate]

lemma rtLong_ne_nil : rtLong ≠ [] := by
  intro h
  have hl := rtLong_length
  rw [h] at hl
  simp at hl

lemma jdLong_valid : 50 ≤ (strip jdLong).length := by
  rw [strip_jdLong, jdLong_length]
  omega

lemma rtLong_valid : 100 ≤ (strip rtLong).length := by
  rw [strip_rtLong, rtLong_length]
  omega

lemma rtLong_long : 4000 < rtLong.length := by
  rw [rtLong_length]
  omega

lemma jdLong_long : 2500 < jdLong.length := by
  rw [jdLong_length]
  omega

lemma extract_for_envLong :
    extract_for envLong ((splitOnDot (lower (str "cv.pdf"))).getLastD [])
      = .ok rtLong := by
  have hext : (splitOnDot (lower (str "cv.pdf"))).getLastD [] = str "pdf" := by
    decide
  rw [hext]
  unfold extract_for
  rw [if_pos rfl]
  have hpg : envLong.pdfPages = .ok [rtLong] := rfl
  rw [hpg]
  exact extract_single_page rtLong rtLong_ne_nil strip_rtLong

/-- C6: for every PDF that parses successfully, the extractor returns the
per-page extracted texts, in document page order, with pages yielding no
text skipped, joined by newline, with surrounding whitespace trimmed from
the final result. -/
theorem C6_pdf_extraction_join (pages : List PyStr) :
    extract_text_from_pdf (.ok pages)
      = .ok (strip (newline_join (pages.filter (fun p => p ≠ [])))) := by
  simp only [extract_text_from_pdf, strip_pdf_fold]

/-- C9: the health operation always succeeds without contacting the
upstream service (it is a total function of the local configuration):
`api_configured` is true with status "healthy" exactly when the credential
is present (non-empty), and when absent the status is "unhealthy" with an
explanatory message. -/
theorem C9_health_report (k : PyStr) :
    ((health_check k).api_configured = true ↔ k ≠ [])
    ∧ ((health_check k).status = str "healthy" ↔ k ≠ [])
    ∧ (health_check k).status
        = (if k = [] then str "unhealthy" else str "healthy")
    ∧ (health_check k).message
        = (if k = [] then str "GROQ_API_KEY environment variable is not set"
           else str "API is ready")
    ∧ (health_check k).model = MODEL_NAME
    ∧ (health_check k).service = str "groq" := by
  by_cases hk : k = []
  · simp [health_check, hk]
    decide
  · simp [health_check, hk]

/-- C10: on every successful analyze response, `metadata.resume_length`
lies in the closed interval [100, 4000]. -/
theorem C10_resume_length_bounds (env : Env) (filename job_description : PyStr)
    (r : AnalysisResponse) (tr : Trace)
    (h : analyze_resume env filename job_description = (.ok r, tr)) :
    100 ≤ r.metadata.resume_length ∧ r.metadata.resume_length ≤ 4000 := by
  obtain ⟨rt, -, h100, -, hmeta, -, -, -⟩ :=
    analyze_ok_inv env filename job_description r tr h
  have hle := strip_length_le rt
  rw [hmeta]
  simp only [List.length_take]
  omega

theorem C10_resume_length_bounds_witness :
    100 ≤ respW.metadata.resume_length ∧ respW.metadata.resume_length ≤ 4000 :=
  C10_resume_length_bounds envW (str "cv.pdf") jdW respW trW (by decide)

/-- C4: every request whose job description trims to fewer than 50
characters is rejected with a 400 client error before the uploaded file is
read and before any extraction. -/
theorem C4_short_jd_rejected (env : Env) (filename job_description : PyStr)
    (hjd : (strip job_description).length < 50) :
    (∃ e, (analyze_resume env filename job_description).1 = .error e
          ∧ e.status_code = 400)
    ∧ (analyze_resume env filename job_description).2.fileRead = false
    ∧ (analyze_resume env filename job_description).2.extractionRun = false
    ∧ (analyze_resume env filename job_description).2.completionCalls = 0 := by
  simp only [analyze_resume]
  split
  · exact ⟨⟨_, rfl, rfl⟩, rfl, rfl, rfl⟩
  · split
    · exact ⟨⟨_, rfl, rfl⟩, rfl, rfl, rfl⟩
    · rw [if_pos (Or.inr hjd)]
      exact ⟨⟨_, rfl, rfl⟩, rfl, rfl, rfl⟩

theorem C4_short_jd_rejected_witness :
    (∃ e, (analyze_resume envW (str "cv.pdf") (str "short")).1 = .error e
          ∧ e.status_code = 400)
    ∧ (analyze_resume envW (str "cv.pdf") (str "short")).2.fileRead = false
    ∧ (analyze_resume envW (str "cv.pdf") (str "short")).2.extractionRun = false
    ∧ (analyze_resume envW (str "cv.pdf") (str "short")).2.completionCalls = 0 :=
  C4_short_jd_rejected envW (str "cv.pdf") (str "short") (by decide)

/-- C1 counterexample: the dot-free filename "pdf" does not end in
`.pdf` or `.docx`, yet the analyze operation does not return the
format-rejection error: it runs extraction and the completion call and
succeeds. -/
theorem C1_counterexample_dotless :
    filename_ends_pdf_or_docx (str "pdf") = false
    ∧ (analyze_resume envW (str "pdf") jdW).2.extractionRun = true
    ∧ (analyze_resume envW (str "pdf") jdW).2.completionCalls = 1
    ∧ (analyze_resume envW (str "pdf") jdW).1
        ≠ .error ⟨400, str "Unsupported file format. Please upload PDF or DOCX"⟩ := by
  refine ⟨by decide, by decide, by decide, by decide⟩

/-- C1 (amended): the validator accepts a filename exactly when the last
dot-separated component of the lower-cased filename is `pdf` or `docx`
(for a dot-free filename this is the whole name); every rejected filename
gets the 400 format-rejection error with no extraction and no completion
call, and every accepted filename never gets that error. -/
theorem C1_extension_validation (env : Env) (filename job_description : PyStr)
    (hne : filename ≠ []) :
    (((splitOnDot (lower filename)).getLastD [] ≠ str "pdf" ∧
      (splitOnDot (lower filename)).getLastD [] ≠ str "docx") →
        analyze_resume env filename job_description
          = (.error ⟨400, str "Unsupported file format. Please upload PDF or DOCX"⟩,
             ⟨false, false, none, 0⟩))
    ∧ (((splitOnDot (lower filename)).getLastD [] = str "pdf" ∨
        (splitOnDot (lower filename)).getLastD [] = str "docx") →
        (analyze_resume env filename job_description).1
          ≠ .error ⟨400, str "Unsupported file format. Please upload PDF or DOCX"⟩) := by
  constructor
  · intro hbad
    simp only [analyze_resume, if_neg hne, if_pos hbad]
  · intro hok
    have hfmt : ¬((splitOnDot (lower filename)).getLastD [] ≠ str "pdf" ∧
                  (splitOnDot (lower filename)).getLastD [] ≠ str "docx") := by
      rcases hok with h | h
      · exact fun hc => hc.1 h
      · exact fun hc => hc.2 h
    simp only [analyze_resume, if_neg hne, if_neg hfmt]
    split
    · decide
    · split
      · rename_i e heq
        obtain ⟨h400, hhead⟩ := extract_for_error env _ e heq
        intro hc
        injection hc with hc
        rw [hc] at hhead
        exact absurd hhead (by decide)
      · rename_i resume_text heq
        split
        · decide
        · split
          · intro hc
            simp at hc
          · split
            · intro hc
              simp at hc
            · intro hc
              simp at hc

theorem C1_extension_validation_witness :
    (((splitOnDot (lower (str "resume.txt"))).getLastD [] ≠ str "pdf" ∧
      (splitOnDot (lower (str "resume.txt"))).getLastD [] ≠ str "docx") →
        analyze_resume envW (str "resume.txt") jdW
          = (.error ⟨400, str "Unsupported file format. Please upload PDF or DOCX"⟩,
             ⟨false, false, none, 0⟩))
    ∧ (((splitOnDot (lower (str "resume.txt"))).getLastD [] = str "pdf" ∨
        (splitOnDot (lower (str "resume.txt"))).getLastD [] = str "docx") →
        (analyze_resume envW (str "resume.txt") jdW).1
          ≠ .error ⟨400, str "Unsupported file format. Please upload PDF or DOCX"⟩) :=
  C1_extension_validation envW (str "resume.txt") jdW (by decide)

/-- C5: a request with a valid extension and valid job description whose
upload parses but extracts to text trimming to fewer than 100 characters
is rejected with the 400 insufficient-content error, with no completion
call. -/
theorem C5_insufficient_extracted (env : Env)
    (filename job_description resume_text : PyStr)
    (hne : filename ≠ [])
    (hext : (splitOnDot (lower filename)).getLastD [] = str "pdf" ∨
            (splitOnDot (lower filename)).getLastD [] = str "docx")
    (hjd : 50 ≤ (strip job_description).length)
    (hrt : extract_for env ((splitOnDot (lower filename)).getLastD [])
             = .ok resume_text)
    (h100 : (strip resume_text).length < 100) :
    analyze_resume env filename job_description
      = (.error ⟨400,
           str "Could not extract sufficient text from resume. Please check your file."⟩,
         ⟨true, true, none, 0⟩) := by
  have hfmt : ¬((splitOnDot (lower filename)).getLastD [] ≠ str "pdf" ∧
                (splitOnDot (lower filename)).getLastD [] ≠ str "docx") := by
    rcases hext with h | h
    · exact fun hc => hc.1 h
    · exact fun hc => hc.2 h
  rw [analyze_unfold_valid env filename job_description hne hfmt hjd]
  simp only [hrt]
  rw [if_pos (Or.inr h100)]

theorem C5_insufficient_extracted_witness :
    analyze_resume envTiny (str "cv.pdf") jdW
      = (.error ⟨400,
           str "Could not extract sufficient text from resume. Please check your file."⟩,
         ⟨true, true, none, 0⟩) :=
  C5_insufficient_extracted envTiny (str "cv.pdf") jdW (str "too short")
    (by decide) (by decide) (by decide) (by decide) (by decide)

/-- C2: for a validated request whose extracted resume text is longer
than 4000 characters and whose job description is longer than 2500
characters, the prompt composer receives exactly the first 4000 and the
first 2500 characters respectively: the pair handed to the composer is
`(resume_text.take 4000, job_description.take 2500)`, each component being
a prefix of the original of exactly the limit length. -/
theorem C2_exact_truncation (env : Env)
    (filename job_description resume_text : PyStr)
    (hne : filename ≠ [])
    (hext : (splitOnDot (lower filename)).getLastD [] = str "pdf" ∨
            (splitOnDot (lower filename)).getLastD [] = str "docx")
    (hjd : 50 ≤ (strip job_description).length)
    (hrt : extract_for env ((splitOnDot (lower filename)).getLastD [])
             = .ok resume_text)
    (h100 : 100 ≤ (strip resume_text).length)
    (hlong : 4000 < resume_text.length)
    (hjdlong : 2500 < job_description.length) :
    (analyze_resume env filename job_description).2.composed
        = some (resume_text.take 4000, job_description.take 2500)
    ∧ (resume_text.take 4000).length = 4000
    ∧ (∃ rest, resume_text = resume_text.take 4000 ++ rest)
    ∧ (job_description.take 2500).length = 2500
    ∧ (∃ rest, job_description = job_description.take 2500 ++ rest) := by
  have hfmt : ¬((splitOnDot (lower filename)).getLastD [] ≠ str "pdf" ∧
                (splitOnDot (lower filename)).getLastD [] ≠ str "docx") := by
    rcases hext with h | h
    · exact fun hc => hc.1 h
    · exact fun hc => hc.2 h
  have hun := analyze_unfold_extracted env filename job_description resume_text
    hne hfmt hjd hrt h100
  refine ⟨?_, ?_,
    ⟨resume_text.drop 4000, (List.take_append_drop 4000 resume_text).symm⟩, ?_,
    ⟨job_description.drop 2500, (List.take_append_drop 2500 job_description).symm⟩⟩
  · rw [hun]
    rcases hg : get_groq_client env.groq_api_key with e | c
    · rfl
    · rcases hc : env.completion
          (analysis_prompt (resume_text.take 4000) (job_description.take 2500))
        with e | a <;> rfl
  · simp only [List.length_take]
    omega
  · simp only [List.length_take]
    omega

theorem C2_exact_truncation_witness :
    (analyze_resume envLong (str "cv.pdf") jdLong).2.composed
        = some (rtLong.take 4000, jdLong.take 2500)
    ∧ (rtLong.take 4000).length = 4000
    ∧ (∃ rest, rtLong = rtLong.take 4000 ++ rest)
    ∧ (jdLong.take 2500).length = 2500
    ∧ (∃ rest, jdLong = jdLong.take 2500 ++ rest) :=
  C2_exact_truncation envLong (str "cv.pdf") jdLong rtLong
    (by decide) (by decide) jdLong_valid extract_for_envLong rtLong_valid
    rtLong_long jdLong_long

/-- C3: on every successful analyze request, the response has
`success = true`, `metadata.filename` equal to the uploaded filename,
`metadata.model_used` the fixed model identifier, `analysis` equal to the
completion call's first-choice content with no modification, and
`metadata.resume_length` the length of the truncated resume text handed
to the composer (hence at most 4000). -/
theorem C3_success_response (env : Env) (filename job_description : PyStr)
    (r : AnalysisResponse) (tr : Trace)
    (h : analyze_resume env filename job_description = (.ok r, tr)) :
    r.success = true
    ∧ r.metadata.filename = filename
    ∧ r.metadata.model_used = MODEL_NAME
    ∧ r.metadata.service = str "groq"
    ∧ r.metadata.resume_length ≤ 4000
    ∧ ∃ truncated_resume,
        tr.composed = some (truncated_resume, job_description.take 2500)
        ∧ env.completion (analysis_prompt truncated_resume (job_description.take 2500))
            = .ok r.analysis
        ∧ r.metadata.resume_length = truncated_resume.length := by
  obtain ⟨rt, -, -, hsucc, hmeta, hcomp, hcompl, -⟩ :=
    analyze_ok_inv env filename job_description r tr h
  refine ⟨hsucc, ?_, ?_, ?_, ?_, rt.take 4000, hcomp, hcompl, ?_⟩ <;> rw [hmeta]
  simp only [List.length_take]
  omega

theorem C3_success_response_witness :
    respW.success = true
    ∧ respW.metadata.filename = str "cv.pdf"
    ∧ respW.metadata.model_used = MODEL_NAME
    ∧ respW.metadata.service = str "groq"
    ∧ respW.metadata.resume_length ≤ 4000
    ∧ ∃ truncated_resume,
        trW.composed = some (truncated_resume, jdW.take 2500)
        ∧ envW.completion (analysis_prompt truncated_resume (jdW.take 2500))
            = .ok respW.analysis
        ∧ respW.metadata.resume_length = truncated_resume.length :=
  C3_success_response envW (str "cv.pdf") jdW respW trW (by decide)

/-- C7: when the upload's bytes fail to parse as the declared format, the
analyze operation fails with a 400 client error (not a server error) whose
detail carries the underlying parse-error message appended to a fixed
prefix; no completion call is made. -/
theorem C7_parse_error_client (env : Env) (filename job_description m : PyStr)
    (hne : filename ≠ [])
    (hjd : 50 ≤ (strip job_description).length) :
    ((splitOnDot (lower filename)).getLastD [] = str "pdf" →
      env.pdfPages = .error m →
      analyze_resume env filename job_description
        = (.error ⟨400, str "Error reading PDF: " ++ m⟩, ⟨true, true, none, 0⟩))
    ∧ ((splitOnDot (lower filename)).getLastD [] = str "docx" →
      env.docxParagraphs = .error m →
      analyze_resume env filename job_description
        = (.error ⟨400, str "Error reading DOCX: " ++ m⟩, ⟨true, true, none, 0⟩)) := by
  constructor
  · intro hext hparse
    have hfmt : ¬((splitOnDot (lower filename)).getLastD [] ≠ str "pdf" ∧
                  (splitOnDot (lower filename)).getLastD [] ≠ str "docx") :=
      fun hc => hc.1 hext
    rw [analyze_unfold_valid env filename job_description hne hfmt hjd]
    have hEf : extract_for env ((splitOnDot (lower filename)).getLastD [])
        = .error ⟨400, str "Error reading PDF: " ++ m⟩ := by
      rw [hext]
      unfold extract_for
      rw [if_pos rfl]
      unfold extract_text_from_pdf
      rw [hparse]
    simp only [hEf]
  · intro hext hparse
    have hfmt : ¬((splitOnDot (lower filename)).getLastD [] ≠ str "pdf" ∧
                  (splitOnDot (lower filename)).getLastD [] ≠ str "docx") :=
      fun hc => hc.2 hext
    rw [analyze_unfold_valid env filename job_description hne hfmt hjd]
    have hEf : extract_for env ((splitOnDot (lower filename)).getLastD [])
        = .error ⟨400, str "Error reading DOCX: " ++ m⟩ := by
      rw [hext]
      unfold extract_for
      rw [if_neg (by decide)]
      unfold extract_text_from_docx
      rw [hparse]
    simp only [hEf]

theorem C7_parse_error_client_witness :
    ((splitOnDot (lower (str "cv.pdf"))).getLastD [] = str "pdf" →
      envBadParse.pdfPages = .error (str "EOF marker not found") →
      analyze_resume envBadParse (str "cv.pdf") jdW
        = (.error ⟨400, str "Error reading PDF: " ++ str "EOF marker not found"⟩,
           ⟨true, true, none, 0⟩))
    ∧ ((splitOnDot (lower (str "cv.pdf"))).getLastD [] = str "docx" →
      envBadParse.docxParagraphs = .error (str "EOF marker not found") →
      analyze_resume envBadParse (str "cv.pdf") jdW
        = (.error ⟨400, str "Error reading DOCX: " ++ str "EOF marker not found"⟩,
           ⟨true, true, none, 0⟩)) :=
  C7_parse_error_client envBadParse (str "cv.pdf") jdW
    (str "EOF marker not found") (by decide) (by decide)

/-- C8: for a request that reaches the completion stage, a missing API
credential or a failing completion call yields a 500 server error whose
detail contains the underlying failure message, and at most one completion
call is ever made (no retry). -/
theorem C8_completion_failure (env : Env)
    (filename job_description resume_text m : PyStr)
    (hne : filename ≠ [])
    (hext : (splitOnDot (lower filename)).getLastD [] = str "pdf" ∨
            (splitOnDot (lower filename)).getLastD [] = str "docx")
    (hjd : 50 ≤ (strip job_description).length)
    (hrt : extract_for env ((splitOnDot (lower filename)).getLastD [])
             = .ok resume_text)
    (h100 : 100 ≤ (strip resume_text).length) :
    (env.groq_api_key = [] →
      analyze_resume env filename job_description
        = (.error ⟨500,
             str "Analysis failed: "
               ++ str "GROQ_API_KEY environment variable is not set"⟩,
           ⟨true, true, some (resume_text.take 4000, job_description.take 2500), 0⟩))
    ∧ (env.groq_api_key ≠ [] →
       env.completion
           (analysis_prompt (resume_text.take 4000) (job_description.take 2500))
         = .error m →
       analyze_resume env filename job_description
         = (.error ⟨500, str "Analysis failed: " ++ m⟩,
            ⟨true, true, some (resume_text.take 4000, job_description.take 2500), 1⟩))
    ∧ (analyze_resume env filename job_description).2.completionCalls ≤ 1 := by
  have hfmt : ¬((splitOnDot (lower filename)).getLastD [] ≠ str "pdf" ∧
                (splitOnDot (lower filename)).getLastD [] ≠ str "docx") := by
    rcases hext with h | h
    · exact fun hc => hc.1 h
    · exact fun hc => hc.2 h
  have hun := analyze_unfold_extracted env filename job_description resume_text
    hne hfmt hjd hrt h100
  refine ⟨?_, ?_, ?_⟩
  · intro hkey
    rw [hun]
    have hcl : get_groq_client env.groq_api_key
        = .error (str "GROQ_API_KEY environment variable is not set") := by
      unfold get_groq_client
      rw [if_pos hkey]
    rw [hcl]
  · intro hkey hcomp
    rw [hun]
    have hcl : get_groq_client env.groq_api_key = .ok env.groq_api_key := by
      unfold get_groq_client
      rw [if_neg hkey]
    rw [hcl, hcomp]
  · rw [hun]
    rcases hg : get_groq_client env.groq_api_key with e | c
    · exact Nat.zero_le 1
    · rcases hc : env.completion
          (analysis_prompt (resume_text.take 4000) (job_description.take 2500))
        with e | a
      · exact Nat.le_refl 1
      · exact Nat.le_refl 1

theorem C8_completion_failure_witness :
    (envNoKey.groq_api_key = [] →
      analyze_resume envNoKey (str "cv.pdf") jdW
        = (.error ⟨500,
             str "Analysis failed: "
               ++ str "GROQ_API_KEY environment variable is not set"⟩,
           ⟨true, true, some (rtW.take 4000, jdW.take 2500), 0⟩))
    ∧ (envNoKey.groq_api_key ≠ [] →
       envNoKey.completion (analysis_prompt (rtW.take 4000) (jdW.take 2500))
         = .error (str "connection refused") →
       analyze_resume envNoKey (str "cv.pdf") jdW
         = (.error ⟨500, str "Analysis failed: " ++ str "connection refused"⟩,
            ⟨true, true, some (rtW.take 4000, jdW.take 2500), 1⟩))
    ∧ (analyze_resume envNoKey (str "cv.pdf") jdW).2.completionCalls ≤ 1 :=
  C8_completion_failure envNoKey (str "cv.pdf") jdW rtW (str "connection refused")
    (by decide) (by decide) (by decide) (by decide) (by decide)

end ResumeAnalyzer
